import Mathlib

/-!
Shallow embedding of the `tweets` Django application
(`tweets/models.py`, `tweets/forms.py`, `tweets/views.py`).

The data store is modelled as an explicit state (`DB`) holding the user
and tweet tables, fresh-id counters, the request clock (for the
`auto_now_add` timestamp) and the one-shot message queue of the messages
framework.  Handlers are state-passing functions `DB → DB × Response`.
Strings stay Lean `String`s; Python slicing `text[:50]` is `List.take`
on the character data.
-/

namespace TwitterClone

/-- `django.contrib.auth.models.User`, the fields this app touches:
`get_or_create` supplies `username` and the defaults
`password='demo12345'`, `is_active=True` (views.py lines 21-24). -/
structure User where
  id : Nat
  username : String
  password : String
  is_active : Bool
deriving Repr, DecidableEq

/-- `tweets/models.py` lines 5-9: the `Tweet` model.
`text = models.CharField(max_length=280)`,
`image = models.ImageField(..., blank=True, null=True)` (the stored
file path), `created_at = models.DateTimeField(auto_now_add=True)`,
`author = models.ForeignKey(User, ..., null=True, blank=True)`
(the referenced row, `none` for an anonymous tweet). -/
structure Tweet where
  id : Nat
  text : String
  image : Option String
  created_at : Nat
  author : Option User
deriving Repr, DecidableEq

/-- The backing store plus per-request ambient data: both tables in
insertion order, the fresh-id counters, the current time used by
`auto_now_add`, and the flash messages appended by
`django.contrib.messages`. -/
structure DB where
  users : List User
  tweets : List Tweet
  nextUserId : Nat
  nextTweetId : Nat
  now : Nat
  messages : List String
deriving Repr, DecidableEq

/-- An HTTP POST body: `request.POST` and `request.FILES` as
association lists (a payload may carry arbitrary extra keys). -/
structure Payload where
  post : List (String × String)
  files : List (String × String)
deriving Repr, DecidableEq

/-- What a handler returns: `redirect(...)`, the rendered list page, or
the rendered creation form carrying its field-error annotations. -/
inductive Response where
  | redirect (loc : String)
  | renderList (tweets : List Tweet)
  | renderForm (errors : List String)
deriving Repr, DecidableEq

/-- `tweets/forms.py` line 8: `fields = ['text', 'image']` — the only
model fields the form reads from the payload. -/
def formFields : List String := ["text", "image"]

/-- The `text` value the form reads from the POST body (absent ↦ empty,
as an unfilled `CharField`). -/
def textOf (p : Payload) : String := (p.post.lookup "text").getD ""

/-- The uploaded image's stored path, if any (`request.FILES`). -/
def imageOf (p : Payload) : Option String := p.files.lookup "image"

/-- Field-level validation errors of `TweetForm`: `text` is a required
`CharField` with `max_length=280` (models.py line 6); `image` is
optional and unconstrained server-side. -/
def formErrors (p : Payload) : List String :=
  if textOf p = "" then ["text: This field is required."]
  else if (textOf p).length > 280 then ["text: max_length 280 exceeded"]
  else []

/-- `form.is_valid()`. -/
def formValid (p : Payload) : Prop := formErrors p = []

instance (p : Payload) : Decidable (formValid p) := by
  unfold formValid; infer_instance

/-- `Model.full_clean()` on a `Tweet`: rejects a blank `text` and a
`text` longer than `max_length=280` (exercised by
`test_tweet_text_max_length_validation`). -/
def full_clean (t : Tweet) : Except String Unit :=
  if t.text = "" then Except.error "text: This field cannot be blank."
  else if t.text.length > 280 then Except.error "text: max_length 280 exceeded"
  else Except.ok ()

/-- `tweet.save()` reached directly (no form, no `full_clean`): assigns
the fresh id and the `auto_now_add` timestamp and appends the row,
with no length check. -/
def tweetSave (db : DB) (text : String) (image : Option String)
    (author : Option User) : DB × Tweet :=
  let t : Tweet := ⟨db.nextTweetId, text, image, db.now, author⟩
  ({ db with tweets := db.tweets ++ [t], nextTweetId := db.nextTweetId + 1 }, t)

/-- `User.objects.get_or_create(username='demo', defaults={'password':
'demo12345', 'is_active': True})` (views.py lines 21-24). -/
def get_or_create_demo (db : DB) : User × DB :=
  match db.users.find? (fun u => u.username == "demo") with
  | some u => (u, db)
  | none =>
    let u : User := ⟨db.nextUserId, "demo", "demo12345", true⟩
    (u, { db with users := db.users ++ [u], nextUserId := db.nextUserId + 1 })

/-- `tweet_create` on a POST (views.py lines 16-28): validate the form;
if valid, get-or-create the demo user, set it as author, save, queue
the success flash and redirect to the list view at `/`; otherwise
re-render the form with its errors. -/
def tweet_create_post (p : Payload) (db : DB) : DB × Response :=
  if formErrors p = [] then
    let demo_user := (get_or_create_demo db).1
    let db1 := (get_or_create_demo db).2
    let db2 := (tweetSave db1 (textOf p) (imageOf p) (some demo_user)).1
    ({ db2 with messages := db2.messages ++ ["Tweet posted successfully!"] },
     Response.redirect "/")
  else
    (db, Response.renderForm (formErrors p))

/-- `Tweet.Meta.ordering = ['-created_at']`: insert a row into a list
already sorted by `created_at` descending. -/
def insertByCreated (t : Tweet) : List Tweet → List Tweet
  | [] => [t]
  | x :: xs =>
    if t.created_at ≤ x.created_at then x :: insertByCreated t xs
    else t :: x :: xs

/-- The ordering the default manager applies to `Tweet.objects.all()`:
sort by `created_at` descending. -/
def orderByCreatedDesc : List Tweet → List Tweet
  | [] => []
  | t :: ts => insertByCreated t (orderByCreatedDesc ts)

/-- `tweet_list` (views.py lines 8-11): render every tweet, newest
first. -/
def tweet_list (db : DB) : Response :=
  Response.renderList (orderByCreatedDesc db.tweets)

/-- The three routes of `tweets/urls.py`: GET `/`, GET `/create/`,
POST `/create/`. -/
inductive Request where
  | getList
  | getCreate
  | postCreate (p : Payload)
deriving Repr, DecidableEq

/-- Dispatch one request: GETs never write; the POST handler is
`tweet_create_post`. -/
def handle : Request → DB → DB × Response
  | Request.getList, db => (db, tweet_list db)
  | Request.getCreate, db => (db, Response.renderForm [])
  | Request.postCreate p, db => tweet_create_post p db

/-- A sequence of POSTs to `/create/`, threading the store. -/
def applyPosts (ps : List Payload) (db : DB) : DB :=
  ps.foldl (fun d q => (tweet_create_post q d).1) db

/-- How many rows of the user table carry username `demo`. -/
def countDemo (db : DB) : Nat :=
  (db.users.filter (fun u => u.username == "demo")).length

/-- Python `text[:50]`: the first `n` characters of a string. -/
def strTake (s : String) (n : Nat) : String := ⟨s.data.take n⟩

/-- `Tweet.__str__` (models.py lines 14-15): author username (or
`Anonymous`), a colon, the first 50 characters of the text, and an
unconditional `...` suffix. -/
def tweetStr (t : Tweet) : String :=
  (match t.author with
   | some u => u.username
   | none => "Anonymous") ++ ": " ++ strTake t.text 50 ++ "..."

/-- A payload whose POST body is exactly `{text: T}`. -/
def mkPayload (T : String) : Payload := ⟨[("text", T)], []⟩

/-- The row a valid POST appends: fresh id, the cleaned `text` and
`image`, the `auto_now_add` timestamp, and the demo author. -/
def newTweet (p : Payload) (db : DB) : Tweet :=
  ⟨db.nextTweetId, textOf p, imageOf p, db.now, some (get_or_create_demo db).1⟩

/-- The empty store at time 0. -/
def emptyDB : DB := ⟨[], [], 0, 0, 0, []⟩

/-- A 281-character text, one over the bound. -/
def longX : String := ⟨List.replicate 281 'x'⟩

/-- A store already holding two tweets with distinct timestamps, in
insertion order. -/
def dbTwo : DB :=
  ⟨[], [⟨0, "first", none, 1, none⟩, ⟨1, "second", none, 2, none⟩], 0, 2, 3, []⟩

/-- A POST body trying to smuggle `author` and `created_at` values past
the form. -/
def sneakyPayload : Payload :=
  ⟨[("text", "hi"), ("author", "1"), ("created_at", "999")], []⟩


set_option maxRecDepth 8192

/-- Helper: `get_or_create_demo` only touches the user table and its
id counter. -/
theorem gocd_preserves (db : DB) :
    (get_or_create_demo db).2.tweets = db.tweets ∧
    (get_or_create_demo db).2.now = db.now ∧
    (get_or_create_demo db).2.messages = db.messages ∧
    (get_or_create_demo db).2.nextTweetId = db.nextTweetId := by
  unfold get_or_create_demo
  rcases h : db.users.find? (fun u => u.username == "demo") with _ | u <;> simp [h]

/-- Helper: the account `get_or_create_demo` hands back has username
`demo`. -/
theorem gocd_username (db : DB) : (get_or_create_demo db).1.username = "demo" := by
  unfold get_or_create_demo
  rcases h : db.users.find? (fun u => u.username == "demo") with _ | u
  · simp [h]
  · have hb : (u.username == "demo") = true := by
      have hh := List.find?_some (p := fun (v : User) => v.username == "demo") h
      simpa using hh
    simp [h]
    exact eq_of_beq hb

/-- Helper: the account `get_or_create_demo` hands back is a row of the
resulting user table. -/
theorem gocd_mem (db : DB) :
    (get_or_create_demo db).1 ∈ (get_or_create_demo db).2.users := by
  unfold get_or_create_demo
  rcases h : db.users.find? (fun u => u.username == "demo") with _ | u
  · simp [h]
  · simp [h]
    exact List.mem_of_find?_eq_some h

/-- Helper: one characterisation of the whole state transition of a
valid POST to `/create/`. -/
theorem tweet_create_post_valid (p : Payload) (db : DB) (h : formValid p) :
    tweet_create_post p db =
      ({ users := (get_or_create_demo db).2.users,
         tweets := db.tweets ++ [newTweet p db],
         nextUserId := (get_or_create_demo db).2.nextUserId,
         nextTweetId := db.nextTweetId + 1,
         now := db.now,
         messages := db.messages ++ ["Tweet posted successfully!"] },
       Response.redirect "/") := by
  obtain ⟨h1, h2, h3, h4⟩ := gocd_preserves db
  have h0 : formErrors p = [] := h
  unfold tweet_create_post tweetSave newTweet
  rw [if_pos h0]
  simp [h1, h2, h3, h4]



/-- Helper: membership in an ordered insert. -/
theorem mem_insertByCreated {a t : Tweet} {l : List Tweet} :
    a ∈ insertByCreated t l ↔ a = t ∨ a ∈ l := by
  induction l with
  | nil => simp [insertByCreated]
  | cons x xs ih =>
    unfold insertByCreated
    split
    · simp [ih]
      tauto
    · simp

/-- Helper: ordered insert preserves the descending-timestamp
invariant. -/
theorem pairwise_insertByCreated {t : Tweet} {l : List Tweet}
    (h : l.Pairwise (fun a b => b.created_at ≤ a.created_at)) :
    (insertByCreated t l).Pairwise (fun a b => b.created_at ≤ a.created_at) := by
  induction l with
  | nil => simp [insertByCreated]
  | cons x xs ih =>
    obtain ⟨hx, hxs⟩ := List.pairwise_cons.1 h
    unfold insertByCreated
    split
    · rename_i hle
      refine List.pairwise_cons.2 ⟨?_, ih hxs⟩
      intro y hy
      rcases mem_insertByCreated.1 hy with rfl | hy'
      · exact hle
      · exact hx y hy'
    · rename_i hgt
      push_neg at hgt
      refine List.pairwise_cons.2 ⟨?_, h⟩
      intro y hy
      rcases List.mem_cons.1 hy with rfl | hy'
      · omega
      · exact le_trans (hx y hy') (le_of_lt hgt)

/-- Helper: the rendered list is sorted by `created_at` descending. -/
theorem pairwise_orderByCreatedDesc (l : List Tweet) :
    (orderByCreatedDesc l).Pairwise (fun a b => b.created_at ≤ a.created_at) := by
  induction l with
  | nil => simp [orderByCreatedDesc]
  | cons t ts ih =>
    rw [orderByCreatedDesc]
    exact pairwise_insertByCreated ih

/-- Helper: ordering drops and invents no rows. -/
theorem mem_orderByCreatedDesc {a : Tweet} {l : List Tweet} :
    a ∈ orderByCreatedDesc l ↔ a ∈ l := by
  induction l with
  | nil => simp [orderByCreatedDesc]
  | cons t ts ih =>
    rw [orderByCreatedDesc]
    rw [mem_insertByCreated]
    simp [ih]

/-- Helper: `get_or_create_demo` never leaves two demo rows behind. -/
theorem countDemo_gocd (db : DB) (h : countDemo db ≤ 1) :
    countDemo (get_or_create_demo db).2 ≤ 1 := by
  unfold get_or_create_demo
  rcases hf : db.users.find? (fun u => u.username == "demo") with _ | u
  · have hall := List.find?_eq_none.1 hf
    have hnil : db.users.filter (fun u => u.username == "demo") = [] := by
      rw [List.filter_eq_nil_iff]
      exact hall
    simp [countDemo, hf, List.filter_append, hnil]
  · simpa [countDemo, hf] using h

/-- Helper: a POST keeps the demo-row count at most one. -/
theorem countDemo_post (p : Payload) (db : DB) (h : countDemo db ≤ 1) :
    countDemo (tweet_create_post p db).1 ≤ 1 := by
  by_cases hv : formErrors p = []
  · rw [tweet_create_post_valid p db hv]
    simpa [countDemo] using countDemo_gocd db h
  · simpa [tweet_create_post, hv] using h

/-- Helper: `text[:50]` is the identity on texts of at most 50
characters. -/
theorem strTake_of_length_le (s : String) (n : Nat) (h : s.length ≤ n) :
    strTake s n = s := by
  have hd : s.data.length ≤ n := h
  rw [strTake, List.take_of_length_le hd]

/-- Helper: the over-long sample text really has 281 characters. -/
theorem longX_length : longX.length = 281 := by
  rw [longX, String.length]
  simp

/-- Helper: a `{text: T}` payload cleans to `T`. -/
theorem textOf_mkPayload (T : String) : textOf (mkPayload T) = T := by
  simp [textOf, mkPayload, List.lookup]

/-- Helper: the demo-row bound survives any sequence of POSTs. -/
theorem countDemo_applyPosts (ps : List Payload) :
    ∀ db : DB, countDemo db ≤ 1 → countDemo (applyPosts ps db) ≤ 1 := by
  induction ps with
  | nil =>
    intro db hd
    simpa [applyPosts] using hd
  | cons q qs ih =>
    intro db hd
    have hstep : applyPosts (q :: qs) db = applyPosts qs (tweet_create_post q db).1 := by
      simp [applyPosts]
    rw [hstep]
    exact ih _ (countDemo_post q db hd)

/-- Claim C1: for every valid text `T` (nonempty, at most 280
characters), a POST of `{text: T}` passes form validation, appends
exactly one new `Tweet` row whose stored text is `T` unchanged, and
the handler redirects. -/
theorem create_valid_text_stored (T : String) (db : DB)
    (h1 : T ≠ "") (h2 : T.length ≤ 280) :
    formValid (mkPayload T) ∧
    ∃ t, (tweet_create_post (mkPayload T) db).1.tweets = db.tweets ++ [t] ∧
      t.text = T ∧
      (tweet_create_post (mkPayload T) db).2 = Response.redirect "/" := by
  have herr : formErrors (mkPayload T) = [] := by
    rw [formErrors, textOf_mkPayload, if_neg h1, if_neg (by omega)]
  refine ⟨herr, newTweet (mkPayload T) db, ?_, ?_, ?_⟩
  · rw [tweet_create_post_valid _ db herr]
  · simp [newTweet, textOf_mkPayload]
  · rw [tweet_create_post_valid _ db herr]

/-- Witness for C1: posting `hello` to the empty store. -/
theorem create_valid_text_stored_witness :
    formValid (mkPayload "hello") ∧
    ∃ t, (tweet_create_post (mkPayload "hello") emptyDB).1.tweets =
        emptyDB.tweets ++ [t] ∧
      t.text = "hello" ∧
      (tweet_create_post (mkPayload "hello") emptyDB).2 = Response.redirect "/" :=
  create_valid_text_stored "hello" emptyDB (by decide) (by decide)

/-- Claim C2: a text longer than 280 characters fails form validation
and the whole store, tweets included, is left exactly as it was; the
form is re-rendered. -/
theorem overlong_text_rejected (T : String) (db : DB) (h : T.length > 280) :
    ¬ formValid (mkPayload T) ∧
    (tweet_create_post (mkPayload T) db).1 = db ∧
    (tweet_create_post (mkPayload T) db).2 =
      Response.renderForm (formErrors (mkPayload T)) := by
  have hne : T ≠ "" := by
    intro he
    rw [he] at h
    exact absurd h (by decide)
  have hnem : formErrors (mkPayload T) ≠ [] := by
    rw [formErrors, textOf_mkPayload, if_neg hne, if_pos h]
    simp
  refine ⟨fun hv => hnem hv, ?_, ?_⟩
  · simp [tweet_create_post, hnem]
  · simp [tweet_create_post, hnem]

/-- Witness for C2: a 281-character text against the empty store. -/
theorem overlong_text_rejected_witness :
    ¬ formValid (mkPayload longX) ∧
    (tweet_create_post (mkPayload longX) emptyDB).1 = emptyDB ∧
    (tweet_create_post (mkPayload longX) emptyDB).2 =
      Response.renderForm (formErrors (mkPayload longX)) :=
  overlong_text_rejected longX emptyDB (by rw [longX_length]; decide)

/-- Claim C3: the list view renders the tweets sorted by `created_at`
descending, so a tweet B created strictly after a tweet A appears at a
strictly earlier position than A. -/
theorem tweet_list_ordered (db : DB) (A B : Tweet)
    (hA : A ∈ db.tweets) (hB : B ∈ db.tweets)
    (hlt : A.created_at < B.created_at) :
    tweet_list db = Response.renderList (orderByCreatedDesc db.tweets) ∧
    ∃ i j : Fin (orderByCreatedDesc db.tweets).length,
      i < j ∧ (orderByCreatedDesc db.tweets).get i = B ∧
        (orderByCreatedDesc db.tweets).get j = A := by
  refine ⟨rfl, ?_⟩
  obtain ⟨iB, hiB⟩ := List.mem_iff_get.1 (mem_orderByCreatedDesc.2 hB)
  obtain ⟨iA, hiA⟩ := List.mem_iff_get.1 (mem_orderByCreatedDesc.2 hA)
  have hp := List.pairwise_iff_get.1 (pairwise_orderByCreatedDesc db.tweets)
  refine ⟨iB, iA, ?_, hiB, hiA⟩
  rcases Nat.lt_trichotomy iA.val iB.val with h1 | h1 | h1
  · have hcon := hp iA iB h1
    rw [hiA, hiB] at hcon
    omega
  · exfalso
    have hfin : iA = iB := Fin.ext h1
    rw [hfin, hiB] at hiA
    rw [hiA] at hlt
    exact lt_irrefl _ hlt
  · exact h1

/-- Witness for C3: a store with two tweets at times 1 and 2. -/
theorem tweet_list_ordered_witness :
    tweet_list dbTwo = Response.renderList (orderByCreatedDesc dbTwo.tweets) ∧
    ∃ i j : Fin (orderByCreatedDesc dbTwo.tweets).length,
      i < j ∧ (orderByCreatedDesc dbTwo.tweets).get i = ⟨1, "second", none, 2, none⟩ ∧
        (orderByCreatedDesc dbTwo.tweets).get j = ⟨0, "first", none, 1, none⟩ :=
  tweet_list_ordered dbTwo ⟨0, "first", none, 1, none⟩ ⟨1, "second", none, 2, none⟩
    (by decide) (by decide) (by decide)

/-- Claim C4: a valid POST attributes the new tweet to a user named
`demo` held in the user table, and any number of POSTs starting from a
store with at most one demo row leaves at most one demo row
(get-or-create semantics, no duplicates). -/
theorem demo_account_unique (p : Payload) (ps : List Payload) (db : DB)
    (hd : countDemo db ≤ 1) :
    countDemo (applyPosts ps db) ≤ 1 ∧
    (formValid p →
      ∃ t u, (tweet_create_post p db).1.tweets = db.tweets ++ [t] ∧
        t.author = some u ∧ u.username = "demo" ∧
        u ∈ (tweet_create_post p db).1.users) := by
  refine ⟨countDemo_applyPosts ps db hd, fun hv => ?_⟩
  refine ⟨newTweet p db, (get_or_create_demo db).1, ?_, rfl, gocd_username db, ?_⟩
  · rw [tweet_create_post_valid p db hv]
  · rw [tweet_create_post_valid p db hv]
    exact gocd_mem db

/-- Witness for C4: two posts into the empty store. -/
theorem demo_account_unique_witness :
    countDemo (applyPosts [mkPayload "a", mkPayload "b"] emptyDB) ≤ 1 ∧
    (formValid (mkPayload "hi") →
      ∃ t u, (tweet_create_post (mkPayload "hi") emptyDB).1.tweets =
          emptyDB.tweets ++ [t] ∧
        t.author = some u ∧ u.username = "demo" ∧
        u ∈ (tweet_create_post (mkPayload "hi") emptyDB).1.users) :=
  demo_account_unique (mkPayload "hi") [mkPayload "a", mkPayload "b"] emptyDB
    (by decide)

/-- Claim C5: every valid POST redirects to `/`, queues exactly the
flash `Tweet posted successfully!`, and does not re-render the form. -/
theorem create_success_redirect_flash (p : Payload) (db : DB) (h : formValid p) :
    (tweet_create_post p db).2 = Response.redirect "/" ∧
    (tweet_create_post p db).1.messages =
      db.messages ++ ["Tweet posted successfully!"] ∧
    ∀ e, (tweet_create_post p db).2 ≠ Response.renderForm e := by
  rw [tweet_create_post_valid p db h]
  simp

/-- Witness for C5: posting `hi` to the empty store. -/
theorem create_success_redirect_flash_witness :
    (tweet_create_post (mkPayload "hi") emptyDB).2 = Response.redirect "/" ∧
    (tweet_create_post (mkPayload "hi") emptyDB).1.messages =
      emptyDB.messages ++ ["Tweet posted successfully!"] ∧
    ∀ e, (tweet_create_post (mkPayload "hi") emptyDB).2 ≠ Response.renderForm e :=
  create_success_redirect_flash (mkPayload "hi") emptyDB (by decide)

/-- Claim C6: an invalid POST re-renders the form with its non-empty
field-error list and returns the store exactly as it was: no tweet, no
demo user, no message, no redirect. -/
theorem invalid_post_state_unchanged (p : Payload) (db : DB)
    (h : ¬ formValid p) :
    tweet_create_post p db = (db, Response.renderForm (formErrors p)) ∧
    formErrors p ≠ [] := by
  have hne : formErrors p ≠ [] := fun hc => h hc
  exact ⟨by simp [tweet_create_post, hne], hne⟩

/-- Witness for C6: posting an empty text to the empty store. -/
theorem invalid_post_state_unchanged_witness :
    tweet_create_post (mkPayload "") emptyDB =
      (emptyDB, Response.renderForm (formErrors (mkPayload ""))) ∧
    formErrors (mkPayload "") ≠ [] :=
  invalid_post_state_unchanged (mkPayload "") emptyDB (by decide)

/-- Claim C7: no route of the system rewrites an existing tweet row:
after any request the old tweet list, every `created_at` included, is
an unchanged prefix of the new one. -/
theorem created_at_immutable (req : Request) (db : DB) :
    ∃ new, (handle req db).1.tweets = db.tweets ++ new := by
  cases req with
  | getList => exact ⟨[], by simp [handle]⟩
  | getCreate => exact ⟨[], by simp [handle]⟩
  | postCreate p =>
    by_cases h : formErrors p = []
    · refine ⟨[newTweet p db], ?_⟩
      show (tweet_create_post p db).1.tweets = db.tweets ++ [newTweet p db]
      rw [tweet_create_post_valid p db h]
    · refine ⟨[], ?_⟩
      show (tweet_create_post p db).1.tweets = db.tweets ++ []
      simp [tweet_create_post, h]

/-- Claim C8: a text over 280 characters is rejected by `full_clean`,
yet a direct `save` that skips full validation persists it anyway. -/
theorem max_length_only_on_full_clean (db : DB) (s : String)
    (h : s.length > 280) :
    (∃ e, full_clean ⟨db.nextTweetId, s, none, db.now, none⟩ = Except.error e) ∧
    ∃ t, t ∈ (tweetSave db s none none).1.tweets ∧ t.text = s := by
  have hne : s ≠ "" := by
    intro he
    rw [he] at h
    exact absurd h (by decide)
  constructor
  · exact ⟨"text: max_length 280 exceeded", by simp [full_clean, hne, h]⟩
  · exact ⟨⟨db.nextTweetId, s, none, db.now, none⟩, by simp [tweetSave], rfl⟩

/-- Witness for C8: the 281-character text against the empty store. -/
theorem max_length_only_on_full_clean_witness :
    (∃ e, full_clean ⟨emptyDB.nextTweetId, longX, none, emptyDB.now, none⟩ =
        Except.error e) ∧
    ∃ t, t ∈ (tweetSave emptyDB longX none none).1.tweets ∧ t.text = longX :=
  max_length_only_on_full_clean emptyDB longX (by rw [longX_length]; decide)

/-- Claim C9: `__str__` is the author username (or `Anonymous` when the
author is null), a colon, the first 50 characters of the text, and a
`...` suffix appended unconditionally — also when the text already has
at most 50 characters. -/
theorem tweetStr_spec (t : Tweet) (u : User) :
    (t.author = some u →
      tweetStr t = u.username ++ ": " ++ strTake t.text 50 ++ "...") ∧
    (t.author = none →
      tweetStr t = "Anonymous" ++ ": " ++ strTake t.text 50 ++ "...") ∧
    (t.text.length ≤ 50 → ∃ who, tweetStr t = who ++ ": " ++ t.text ++ "...") := by
  refine ⟨fun h => by simp [tweetStr, h], fun h => by simp [tweetStr, h], fun h => ?_⟩
  refine ⟨(match t.author with | some v => v.username | none => "Anonymous"), ?_⟩
  rw [tweetStr, strTake_of_length_le t.text 50 h]

/-- Witness for C9: a demo-authored two-character tweet. -/
theorem tweetStr_spec_witness :
    tweetStr ⟨0, "hi", none, 0, some ⟨0, "demo", "demo12345", true⟩⟩ =
      (⟨0, "demo", "demo12345", true⟩ : User).username ++ ": " ++
        strTake (⟨0, "hi", none, 0,
          some ⟨0, "demo", "demo12345", true⟩⟩ : Tweet).text 50 ++ "..." :=
  (tweetStr_spec ⟨0, "hi", none, 0, some ⟨0, "demo", "demo12345", true⟩⟩
    ⟨0, "demo", "demo12345", true⟩).1 rfl

/-- Claim C10: whatever extra keys the POST body carries, the created
row takes only `text` and `image` from it; its author is always the
demo account from the user table and its timestamp is the request
clock, never payload data. -/
theorem form_restricts_fields (p : Payload) (db : DB) (h : formValid p) :
    ∃ t u, (tweet_create_post p db).1.tweets = db.tweets ++ [t] ∧
      t.author = some u ∧ u.username = "demo" ∧
      u ∈ (tweet_create_post p db).1.users ∧
      t.created_at = db.now ∧ t.text = textOf p ∧ t.image = imageOf p := by
  refine ⟨newTweet p db, (get_or_create_demo db).1, ?_, rfl, gocd_username db,
    ?_, rfl, rfl, rfl⟩
  · rw [tweet_create_post_valid p db h]
  · rw [tweet_create_post_valid p db h]
    exact gocd_mem db

/-- Witness for C10: a payload that also carries `author` and
`created_at` keys. -/
theorem form_restricts_fields_witness :
    ∃ t u, (tweet_create_post sneakyPayload emptyDB).1.tweets =
        emptyDB.tweets ++ [t] ∧
      t.author = some u ∧ u.username = "demo" ∧
      u ∈ (tweet_create_post sneakyPayload emptyDB).1.users ∧
      t.created_at = emptyDB.now ∧ t.text = textOf sneakyPayload ∧
      t.image = imageOf sneakyPayload :=
  form_restricts_fields sneakyPayload emptyDB (by decide)

end TwitterClone
